import Mathlib

/-!
Verification development for the Socket.io proximity-chat and football-ground
server (`socket.js` of the CV-Studio backend).

Modelling conventions (shallow embedding):

* JavaScript numbers are modelled as exact rationals (`ℚ`).  A JavaScript
  value that is not a (finite) number — `undefined`, `NaN`, a missing object
  field, a non-numeric payload value — is modelled by `none` in the type
  `JQ := Option ℚ`.  Arithmetic on `JQ` propagates `none` exactly as JS
  arithmetic propagates `NaN` (`undefined` and `NaN` behave identically in
  every arithmetic expression and comparison of this program), and every
  numeric comparison on a `none` operand is `false`, matching `NaN`
  comparison semantics.  Coercion of numeric strings by `-`/`*` is outside
  the model: a non-numeric payload field means a value that is not a number.

* JavaScript `Map`s are modelled as association lists in insertion order
  (`Map.forEach` iterates in insertion order; `set` of an existing key
  updates in place; `delete` removes the unique entry with that key).

* `emit`/`broadcast`/`disconnect` side effects are returned as a `List Event`
  in emission order rather than performed.

* `Date.now()` is passed to every handler as an explicit `now : ℚ` argument.
-/

namespace CVStudio

/-- A JavaScript numeric slot: `some q` is a finite number, `none` is any
non-number (`undefined`, `NaN`, absent field). -/
abbrev JQ := Option ℚ

/-- JS addition: number + number is a number, anything with a non-number
operand is `NaN` (`none`). -/
def jadd : JQ → JQ → JQ
  | some a, some b => some (a + b)
  | _, _ => none

/-- JS subtraction with `NaN` propagation. -/
def jsub : JQ → JQ → JQ
  | some a, some b => some (a - b)
  | _, _ => none

/-- JS multiplication with `NaN` propagation. -/
def jmul : JQ → JQ → JQ
  | some a, some b => some (a * b)
  | _, _ => none

/-- JS `<` comparison: `false` whenever an operand is not a number
(`NaN < x` and `undefined < x` are `false`). -/
def jlt : JQ → JQ → Bool
  | some a, some b => decide (a < b)
  | _, _ => false

/-- JS `<=` comparison, `false` on non-number operands. -/
def jle : JQ → JQ → Bool
  | some a, some b => decide (a ≤ b)
  | _, _ => false

/-- JS `Math.abs(v) < c` for a numeric literal `c`: `false` when `v` is not
a number (`Math.abs` of a non-number is `NaN`). -/
def jabsLt (v : JQ) (c : ℚ) : Bool :=
  match v with
  | some a => decide (|a| < c)
  | none => false

/-- JS strict inequality `v !== 0`: `true` for every non-number (`undefined
!== 0` and `NaN !== 0` are both `true`) and for every number other than 0. -/
def jneZero : JQ → Bool
  | some a => decide (a ≠ 0)
  | none => true

/-- JS `v || 0`: the number `v` unless `v` is falsy (`undefined`, `NaN`, `0`),
in which case `0`.  (`0 || 0` is `0`, so `getD` gives the same result.) -/
def jor0 (v : JQ) : ℚ := v.getD 0

/-- Association-list lookup: value of the unique entry with key `k`
(`Map.get`). -/
def getKey {α : Type} (m : List (String × α)) (k : String) : Option α :=
  (m.find? (fun e => e.1 == k)).map (·.2)

/-- `Map.set`: update the entry with key `k` in place if present, otherwise
append a new entry. -/
def setKey {α : Type} (m : List (String × α)) (k : String) (v : α) :
    List (String × α) :=
  if m.any (fun e => e.1 == k) then
    m.map (fun e => if e.1 == k then (k, v) else e)
  else m ++ [(k, v)]

/-- `Map.delete`: remove the entry with key `k`. -/
def eraseKey {α : Type} (m : List (String × α)) (k : String) :
    List (String × α) :=
  m.filter (fun e => e.1 != k)

/-! ## Configuration (`CONFIG`, `FOOTBALL_CONFIG`) -/

def PROXIMITY_THRESHOLD : ℚ := 200
def PROXIMITY_THRESHOLD_SQ : ℚ := 200 * 200
def POSITION_UPDATE_THROTTLE : ℚ := 50
def MESSAGE_RATE_LIMIT : ℕ := 5
def MESSAGE_MAX_LENGTH : ℕ := 200

def FIELD_WIDTH : ℚ := 800
def FIELD_HEIGHT : ℚ := 600
def FIELD_PADDING : ℚ := 50
def GOAL_WIDTH : ℚ := 80
def GOAL_DEPTH : ℚ := 25
def BALL_FRICTION : ℚ := 0.985
def BALL_MAX_SPEED : ℚ := 20
def BALL_BOUNCE : ℚ := 0.7
def BALL_SYNC_RATE : ℚ := 33
def KICK_COOLDOWN : ℚ := 300
def FOOTBALL_POSITION_THROTTLE : ℚ := 33

/-- `goalTop = (height - goalWidth) / 2` (computed each tick). -/
def goalTop : ℚ := (FIELD_HEIGHT - GOAL_WIDTH) / 2

/-- `goalBottom = goalTop + goalWidth`. -/
def goalBottom : ℚ := goalTop + GOAL_WIDTH

/-! ## Data model -/

/-- Entry of the general player registry (`players` map). -/
structure Player where
  userId : Option String
  nickname : String
  avatar : Option String
  x : JQ
  y : JQ
  lastUpdate : ℚ
  deriving DecidableEq, Repr

/-- Per-connection rate-limit record (`messageRateLimits` entry). -/
structure RateLimit where
  count : ℕ
  resetTime : ℚ
  deriving DecidableEq, Repr

/-- A delivered chat message (`chatMessage` object).  The random `id` field
(`generateMessageId`) is nondeterministic and carries no delivery-relevant
information, so it is not tracked. -/
structure ChatMessage where
  senderId : String
  senderName : String
  senderAvatar : Option String
  message : String
  x : JQ
  y : JQ
  timestamp : ℚ
  deriving DecidableEq, Repr

/-- The football ball object.  A `none` numeric field models a JS field that
is `undefined` (in particular a field that is absent from the object, which
is indistinguishable from an explicitly-`undefined` field to every read the
program performs). -/
structure BallObj where
  x : JQ
  y : JQ
  vx : JQ
  vy : JQ
  spin : JQ
  lastKickedBy : Option String
  lastKickTime : JQ
  deriving DecidableEq, Repr

/-- Entry of the football-ground player map.  `football:join` never sets
`lastKickTime`, so it starts out absent (`none`). -/
structure FPlayer where
  odId : Option String
  nickname : String
  avatar : Option String
  team : String
  x : JQ
  y : JQ
  vx : JQ
  vy : JQ
  lastUpdate : ℚ
  lastKickTime : Option ℚ
  deriving DecidableEq, Repr

/-- Football-ground shared state (`footballGround`). -/
structure Ground where
  fplayers : List (String × FPlayer)
  ball : BallObj
  scoreRed : ℕ
  scoreBlue : ℕ
  isPlaying : Bool
  lastBallSync : ℚ
  matchStartTime : Option ℚ
  deriving DecidableEq, Repr

/-- General chat/presence server state: the `players` registry and the
`messageRateLimits` table. -/
structure ChatState where
  players : List (String × Player)
  rateLimits : List (String × RateLimit)
  deriving DecidableEq, Repr

/-- The initial ball (`footballGround.ball` literal): spin present and 0. -/
def initBall : BallObj :=
  { x := some (FIELD_WIDTH / 2), y := some (FIELD_HEIGHT / 2),
    vx := some 0, vy := some 0, spin := some 0,
    lastKickedBy := none, lastKickTime := some 0 }

/-- Observable side effects (socket emissions / forced disconnects),
recorded in emission order. -/
inductive Event where
  | playerLeftB (socketId : String)
  | disconnectSock (socketId : String)
  | playerJoinedB (socketId : String) (p : Player)
  | playersList (dest : String) (roster : List (String × Player))
  | playerMovedB (socketId : String) (x y : JQ)
  | playersNearby (dest : String) (ids : List String)
  | chatError (dest : String)
  | chatReceived (dest : String) (msg : ChatMessage)
  | connectionTimeout (dest : String)
  | fPlayerJoined (p : FPlayer)
  | fPlayersList (dest : String) (roster : List FPlayer)
  | fGameState (dest : Option String) (ball : BallObj) (red blue : ℕ)
      (isPlaying : Bool)
  | fPlayerLeft (socketId : String)
  | fPlayerMoved (socketId : String) (x y vx vy : JQ)
  | ballUpdate (b : BallObj)
  | goalScored (team : String) (red blue : ℕ) (scoredBy : Option String)
  deriving DecidableEq, Repr

/-! ## Chat: sanitization, rate limiting, proximity -/

/-- A chat payload's `message` field as received: a string, or any
non-string JS value. -/
inductive JsInput where
  | jstr (s : String)
  | jother
  deriving DecidableEq, Repr

/-- One character of the XSS escape.  The source applies three global
single-character regex replaces in sequence (`<`→`&lt;`, `>`→`&gt;`,
`"`→`&quot;`); since each pattern is a single character and no replacement
string contains a later pattern character, the sequence is exactly this
character-wise substitution. -/
def escapeChar (c : Char) : List Char :=
  if c = '<' then ['&', 'l', 't', ';']
  else if c = '>' then ['&', 'g', 't', ';']
  else if c = '"' then ['&', 'q', 'u', 'o', 't', ';']
  else [c]

/-- The escape step of `sanitizeMessage`. -/
def escapeHtml (s : String) : String :=
  ⟨s.data.flatMap escapeChar⟩

/-- JS `String.prototype.trim`: strip leading and trailing whitespace,
modelled on the character list (the JS whitespace set is approximated by
`Char.isWhitespace`). -/
def trimChars (l : List Char) : List Char :=
  ((l.dropWhile Char.isWhitespace).reverse.dropWhile Char.isWhitespace).reverse

/-- `sanitizeMessage`: `null` for a non-string or falsy input, otherwise
`message.trim().slice(0, MESSAGE_MAX_LENGTH)` (modelled as the first
`MESSAGE_MAX_LENGTH` characters of the trimmed character list), `null` if
the result is empty, else the `<`/`>`/`"` escape of the result. -/
def sanitizeMessage (m : JsInput) : Option String :=
  match m with
  | .jother => none
  | .jstr s =>
    let trimmed := (trimChars s.data).take MESSAGE_MAX_LENGTH
    if trimmed.length = 0 then none
    else some (escapeHtml (String.mk trimmed))

/-- `checkRateLimit`: returns the boolean result together with the updated
`messageRateLimits` table. -/
def checkRateLimit (rl : List (String × RateLimit)) (sid : String)
    (now : ℚ) : Bool × List (String × RateLimit) :=
  let limit := (getKey rl sid).getD { count := 0, resetTime := now + 1000 }
  if now > limit.resetTime then
    (true, setKey rl sid { count := 1, resetTime := now + 1000 })
  else if limit.count ≥ MESSAGE_RATE_LIMIT then
    (false, rl)
  else
    (true, setKey rl sid { limit with count := limit.count + 1 })

/-- Squared distance between two registry entries (`dx*dx + dy*dy`), `NaN`
(`none`) if any stored coordinate is not a number. -/
def distSq (p q : Player) : JQ :=
  jadd (jmul (jsub p.x q.x) (jsub p.x q.x)) (jmul (jsub p.y q.y) (jsub p.y q.y))

/-- `getNearbyPlayers`: every other registry entry whose squared distance to
the caller is `<=` the squared threshold, in registry order.  The reported
`distance` field (`Math.sqrt(distSq)`) is display-only, is used by no
delivery decision, and is not tracked. -/
def getNearbyPlayers (players : List (String × Player)) (sid : String)
    (thresholdSq : ℚ) : List (String × Player) :=
  match getKey players sid with
  | none => []
  | some p =>
    players.filter (fun e => e.1 != sid && jle (distSq p e.2) (some thresholdSq))

/-- The `chatMessage` object built by the `chat:message` handler. -/
def mkChatMsg (sid : String) (p : Player) (text : String) (now : ℚ) :
    ChatMessage :=
  { senderId := sid, senderName := p.nickname, senderAvatar := p.avatar,
    message := text, x := p.x, y := p.y, timestamp := now }

/-- The `chat:message` handler: sender lookup, rate limit, sanitization,
then echo to the sender and delivery to every nearby player. -/
def chatMessage (st : ChatState) (sid : String) (data : JsInput) (now : ℚ) :
    ChatState × List Event :=
  match getKey st.players sid with
  | none => (st, [])
  | some p =>
    let rlRes := checkRateLimit st.rateLimits sid now
    if !rlRes.1 then
      ({ st with rateLimits := rlRes.2 }, [.chatError sid])
    else
      match sanitizeMessage data with
      | none => ({ st with rateLimits := rlRes.2 }, [])
      | some text =>
        let msg := mkChatMsg sid p text now
        let nearby := getNearbyPlayers st.players sid PROXIMITY_THRESHOLD_SQ
        ({ st with rateLimits := rlRes.2 },
          .chatReceived sid msg :: nearby.map (fun e => .chatReceived e.1 msg))

/-! ## Presence lifecycle -/

/-- `player:join` payload. -/
structure JoinData where
  userId : Option String
  nickname : Option String
  avatar : Option String
  x : JQ
  y : JQ
  deriving DecidableEq, Repr

/-- JS `s || dflt` for a string slot: the default when the slot is absent or
the empty string (both falsy). -/
def jsOrStr (s : Option String) (dflt : String) : String :=
  match s with
  | some v => if v = "" then dflt else v
  | none => dflt

/-- The duplicate-identity test of the `player:join` eviction loop:
`existingPlayer.userId === userId || existingPlayer.nickname === nickname`
(strict JS equality; two `undefined` user ids are equal). -/
def matchesIdentity (p : Player) (userId nickname : Option String) : Bool :=
  p.userId == userId || (some p.nickname : Option String) == nickname

/-- The registry entry inserted by `player:join`. -/
def mkJoinPlayer (d : JoinData) (now : ℚ) : Player :=
  { userId := d.userId, nickname := jsOrStr d.nickname "Anonymous",
    avatar := some (jsOrStr d.avatar "#3B82F6"),
    x := some (jor0 d.x), y := some (jor0 d.y), lastUpdate := now }

/-- `player:join`: evict every other registry entry whose user id or
nickname strictly equals the incoming one (broadcasting `player:left` and
forcibly disconnecting each), insert the new entry, broadcast
`player:joined`, and reply with the roster excluding self. -/
def playerJoin (st : ChatState) (sid : String) (d : JoinData) (now : ℚ) :
    ChatState × List Event :=
  let isDup := fun (e : String × Player) =>
    e.1 != sid && matchesIdentity e.2 d.userId d.nickname
  let evicted := st.players.filter isDup
  let kept := st.players.filter (fun e => !isDup e)
  let newP := mkJoinPlayer d now
  let players' := setKey kept sid newP
  let roster := players'.filter (fun e => e.1 != sid)
  ({ st with players := players' },
    evicted.flatMap (fun e => [.playerLeftB e.1, .disconnectSock e.1]) ++
      [.playerJoinedB sid newP, .playersList sid roster])

/-- `player:position` payload (`x`/`y` may be absent or non-numeric). -/
structure PosData where
  x : JQ
  y : JQ
  deriving DecidableEq, Repr

/-- `player:position`: no-op for an unknown sender or inside the throttle
interval; otherwise store `data.x`/`data.y` verbatim (no validation),
broadcast `player:moved`, and send the sender its nearby list. -/
def playerPosition (st : ChatState) (sid : String) (d : PosData) (now : ℚ) :
    ChatState × List Event :=
  match getKey st.players sid with
  | none => (st, [])
  | some p =>
    if now - p.lastUpdate < POSITION_UPDATE_THROTTLE then (st, [])
    else
      let p' := { p with x := d.x, y := d.y, lastUpdate := now }
      let players' := setKey st.players sid p'
      let nearby := getNearbyPlayers players' sid PROXIMITY_THRESHOLD_SQ
      ({ st with players := players' },
        [.playerMovedB sid d.x d.y, .playersNearby sid (nearby.map (·.1))])

/-- `player:leave`: if registered, broadcast `player:left` and delete both
the registry entry and the rate-limit entry. -/
def playerLeave (st : ChatState) (sid : String) : ChatState × List Event :=
  match getKey st.players sid with
  | none => (st, [])
  | some _ =>
    ({ players := eraseKey st.players sid,
       rateLimits := eraseKey st.rateLimits sid }, [.playerLeftB sid])

/-- `disconnect` handler: like `player:leave` on the general registry (also
deleting the rate-limit entry), plus removal from the football ground. -/
def disconnectHandler (st : ChatState) (g : Ground) (sid : String) :
    ChatState × Ground × List Event :=
  let (st', ev1) :=
    match getKey st.players sid with
    | none => (st, ([] : List Event))
    | some _ =>
      ({ players := eraseKey st.players sid,
         rateLimits := eraseKey st.rateLimits sid }, [.playerLeftB sid])
  let (g', ev2) :=
    if (getKey g.fplayers sid).isSome then
      ({ g with fplayers := eraseKey g.fplayers sid }, [Event.fPlayerLeft sid])
    else (g, [])
  (st', g', ev1 ++ ev2)

/-- The idle-cleanup sweep: every registry entry whose `lastUpdate` is older
than the 5-minute timeout is notified (`connection:timeout`), announced via
`player:left`, and deleted.  The rate-limit table is not touched. -/
def IDLE_TIMEOUT : ℚ := 300000

def cleanup (st : ChatState) (now : ℚ) : ChatState × List Event :=
  let timedOut := fun (e : String × Player) =>
    decide (now - e.2.lastUpdate > IDLE_TIMEOUT)
  ({ st with players := st.players.filter (fun e => !timedOut e) },
    (st.players.filter timedOut).flatMap
      (fun e => [.connectionTimeout e.1, .playerLeftB e.1]))

/-! ## Football ground -/

/-- `football:join` payload. -/
structure FJoinData where
  odId : Option String
  odname : Option String
  avatar : Option String
  team : Option String
  position : Option (JQ × JQ)
  deriving DecidableEq, Repr

/-- JS `v || dflt` for a numeric slot with a nonzero default
(`data.position?.x || width / 2`): the default when the slot is absent,
non-numeric or `0`. -/
def jorD (v : JQ) (dflt : ℚ) : ℚ :=
  match v with
  | some q => if q = 0 then dflt else q
  | none => dflt

/-- `football:join`: build the player record (team defaulting to the result
`randTeam` of the `Math.random` coin toss when absent), add it to the
ground, and send roster and game state to the joiner.  `lastKickTime` is
not set. -/
def footballJoin (g : Ground) (sid : String) (d : FJoinData)
    (randTeam : String) (now : ℚ) : Ground × List Event :=
  let p : FPlayer :=
    { odId := d.odId, nickname := jsOrStr d.odname "Player",
      avatar := d.avatar, team := jsOrStr d.team randTeam,
      x := some (jorD (d.position.map (·.1)).join (FIELD_WIDTH / 2)),
      y := some (jorD (d.position.map (·.2)).join (FIELD_HEIGHT / 2)),
      vx := some 0, vy := some 0, lastUpdate := now, lastKickTime := none }
  let g' := { g with fplayers := setKey g.fplayers sid p }
  let roster := (g'.fplayers.filter (fun e => e.1 != sid)).map (·.2)
  (g', [.fPlayerJoined p, .fPlayersList sid roster,
        .fGameState (some sid) g'.ball g'.scoreRed g'.scoreBlue g'.isPlaying])

/-- `football:kick` payload. -/
structure KickData where
  vx : JQ
  vy : JQ
  spin : JQ
  deriving DecidableEq, Repr

/-- The cooldown guard `player.lastKickTime && now - player.lastKickTime <
KICK_COOLDOWN`: an absent or zero `lastKickTime` is falsy, so the guard
never fires for it. -/
def kickOnCooldown (lastKickTime : Option ℚ) (now : ℚ) : Bool :=
  match lastKickTime with
  | some t => t != 0 && decide (now - t < KICK_COOLDOWN)
  | none => false

/-- `football:kick`: no-op unless the sender is a registered football
player, the match is playing, and the sender is off cooldown; on success
overwrite the ball's velocity and spin, record kicker and kick time, and
broadcast the ball immediately. -/
def footballKick (g : Ground) (sid : String) (d : KickData) (now : ℚ) :
    Ground × List Event :=
  match getKey g.fplayers sid with
  | none => (g, [])
  | some p =>
    if !g.isPlaying then (g, [])
    else if kickOnCooldown p.lastKickTime now then (g, [])
    else
      let ball' := { g.ball with
        vx := d.vx
        vy := d.vy
        spin := some (jor0 d.spin)
        lastKickedBy := some sid
        lastKickTime := some now }
      let p' := { p with lastKickTime := some now }
      ({ g with
          ball := ball'
          fplayers := setKey g.fplayers sid p' },
        [.ballUpdate ball'])

/-! ## Physics tick -/

/-- Exact rational square root: `some r` with `r * r = q`, `0 ≤ r`, when `q`
is a square in `ℚ`, else `none`. -/
def ratSqrtExact (q : ℚ) : Option ℚ :=
  let r : ℚ := (Nat.sqrt q.num.toNat : ℚ) / (Nat.sqrt q.den : ℚ)
  if 0 ≤ q ∧ r * r = q then some r else none

/-- `(v / Math.sqrt s2) * BALL_MAX_SPEED`, the max-speed rescaling.  Over
exact rationals `Math.sqrt s2` is irrational unless `s2` is a square, so the
rescaled component is represented exactly when it is rational and by the
non-number marker otherwise; no claim depends on a rescaled component's
value (the rescale branch requires `s2 > 400`, and every other output of the
tick is independent of it). -/
def jsqrtDivScale (v s2 : JQ) : JQ :=
  match v, s2 with
  | some q, some s =>
    match ratSqrtExact s with
    | some r => if r = 0 then none else some (q / r * BALL_MAX_SPEED)
    | none => none
  | _, _ => none

/-- The per-tick ball physics, in source order: (1) integrate position with
the current velocity, (2) spin curve (the `vy` line reads the
already-updated `vx`, as in the source) and spin decay when `spin !== 0`,
(3) friction, (4) zero-clamp of small velocity components, (5) max-speed
clamp (`Math.sqrt(vx**2 + vy**2) > 20` iff `vx**2 + vy**2 > 400` for
numbers, and is false for `NaN`). -/
def physBall (b : BallObj) : BallObj :=
  let b1 := { b with x := jadd b.x b.vx, y := jadd b.y b.vy }
  let b2 :=
    if jneZero b1.spin then
      let vx1 := jadd b1.vx (jmul (jmul b1.vy b1.spin) (some 0.01))
      let vy1 := jsub b1.vy (jmul (jmul vx1 b1.spin) (some 0.01))
      { b1 with vx := vx1, vy := vy1, spin := jmul b1.spin (some 0.98) }
    else b1
  let b3 := { b2 with
    vx := jmul b2.vx (some BALL_FRICTION)
    vy := jmul b2.vy (some BALL_FRICTION) }
  let b4 := { b3 with
    vx := if jabsLt b3.vx 0.01 then some 0 else b3.vx
    vy := if jabsLt b3.vy 0.01 then some 0 else b3.vy }
  let s2 := jadd (jmul b4.vx b4.vx) (jmul b4.vy b4.vy)
  if jlt (some (BALL_MAX_SPEED * BALL_MAX_SPEED)) s2 then
    { b4 with vx := jsqrtDivScale b4.vx s2, vy := jsqrtDivScale b4.vy s2 }
  else b4

/-- The wall-collision block (runs only when no goal was scored):
top/bottom walls, then left/right walls outside the goal mouth. -/
def wallStep (b : BallObj) : BallObj :=
  let b1 := if jlt b.y (some FIELD_PADDING) then
      { b with y := some FIELD_PADDING, vy := jmul b.vy (some (-BALL_BOUNCE)) }
    else b
  let b2 := if jlt (some (FIELD_HEIGHT - FIELD_PADDING)) b1.y then
      { b1 with
        y := some (FIELD_HEIGHT - FIELD_PADDING)
        vy := jmul b1.vy (some (-BALL_BOUNCE)) }
    else b1
  let b3 := if jlt b2.x (some FIELD_PADDING) &&
      (jlt b2.y (some goalTop) || jlt (some goalBottom) b2.y) then
      { b2 with x := some FIELD_PADDING, vx := jmul b2.vx (some (-BALL_BOUNCE)) }
    else b2
  if jlt (some (FIELD_WIDTH - FIELD_PADDING)) b3.x &&
      (jlt b3.y (some goalTop) || jlt (some goalBottom) b3.y) then
    { b3 with
      x := some (FIELD_WIDTH - FIELD_PADDING)
      vx := jmul b3.vx (some (-BALL_BOUNCE)) }
  else b3

/-- One iteration of the 16 ms physics interval: skip when the ground is
empty or the match is paused; run ball physics; check the goals (left goal:
`x < padding - goalDepth/2` with `goalTop < y < goalBottom`, strictly); on a
goal, record the score, pause the match, emit `football:goalScored` and stop
(no wall collisions, no periodic sync this tick); otherwise run wall
collisions and the throttled ball sync. -/
def tick (g : Ground) (now : ℚ) : Ground × List Event :=
  if g.fplayers.isEmpty then (g, [])
  else if !g.isPlaying then (g, [])
  else
    let b := physBall g.ball
    if jlt b.x (some (FIELD_PADDING - GOAL_DEPTH / 2)) &&
        (jlt (some goalTop) b.y && jlt b.y (some goalBottom)) then
      let g' := { g with
        ball := b
        scoreBlue := g.scoreBlue + 1
        isPlaying := false }
      (g', [.goalScored "blue" g'.scoreRed g'.scoreBlue b.lastKickedBy])
    else if jlt (some (FIELD_WIDTH - FIELD_PADDING + GOAL_DEPTH / 2)) b.x &&
        (jlt (some goalTop) b.y && jlt b.y (some goalBottom)) then
      let g' := { g with
        ball := b
        scoreRed := g.scoreRed + 1
        isPlaying := false }
      (g', [.goalScored "red" g'.scoreRed g'.scoreBlue b.lastKickedBy])
    else
      let b' := wallStep b
      if now - g.lastBallSync > BALL_SYNC_RATE then
        ({ g with ball := b', lastBallSync := now }, [.ballUpdate b'])
      else ({ g with ball := b' }, [])

/-- The ball object created by the 3000 ms goal-reset callback: only
position, velocity and `lastKickedBy` are present; `spin` and
`lastKickTime` are absent (`none`), unlike `initBall`. -/
def resetBall : BallObj :=
  { x := some (FIELD_WIDTH / 2), y := some (FIELD_HEIGHT / 2),
    vx := some 0, vy := some 0, spin := none,
    lastKickedBy := none, lastKickTime := none }

/-- The 3000 ms goal-reset callback: replace the ball by `resetBall`, resume
play, and broadcast the refreshed game state. -/
def goalReset (g : Ground) : Ground × List Event :=
  let g' := { g with ball := resetBall, isPlaying := true }
  (g', [.fGameState none resetBall g'.scoreRed g'.scoreBlue true])

/-! ## Sample states used by concrete theorems -/

/-- A registry entry with the given identity and numeric position. -/
def mkP (u n : String) (x y : ℚ) : Player :=
  { userId := some u
    nickname := n
    avatar := none
    x := some x
    y := some y
    lastUpdate := 0 }

/-- A football player who has never kicked (`lastKickTime` absent). -/
def fp1 : FPlayer :=
  { odId := some "u"
    nickname := "P"
    avatar := none
    team := "red"
    x := some 100
    y := some 100
    vx := some 0
    vy := some 0
    lastUpdate := 0
    lastKickTime := none }

/-- Ground with one player and the ball at field center moving with
velocity (5, 0) and spin 0. -/
def g3 : Ground :=
  { fplayers := [("p", fp1)]
    ball := { initBall with vx := some 5 }
    scoreRed := 0
    scoreBlue := 0
    isPlaying := true
    lastBallSync := 0
    matchStartTime := none }

/-- Ground with the resting ball at (30, 260): inside the left-goal x-range
with y exactly at `goalTop`. -/
def gBoundary : Ground :=
  { g3 with ball := { initBall with x := some 30, y := some 260 } }

/-- Ground with the resting ball at (30, 261): strictly inside the left
goal mouth. -/
def gGoal : Ground :=
  { g3 with ball :=
      { initBall with x := some 30, y := some 261, lastKickedBy := some "p" } }

/-- Chat registry: A at (0,0), B at distance exactly 200, C at 201. -/
def stC : ChatState :=
  { players := [("A", mkP "a" "A" 0 0), ("B", mkP "b" "B" 200 0),
                ("C", mkP "c" "C" 201 0)]
    rateLimits := [] }

/-- Presence registry with two distinct identities. -/
def stJ : ChatState :=
  { players := [("s1", mkP "u" "N" 0 0), ("s2", mkP "v" "M" 0 0)]
    rateLimits := [] }

/-- A join payload carrying the same identity as `stJ`'s entry `s1`. -/
def dJoin : JoinData :=
  { userId := some "u", nickname := some "N", avatar := none,
    x := some 1, y := some 2 }

/-- A 51-character string of `<`. -/
def ltString : String := String.mk (List.replicate 51 '<')

/-- A rate-limit table whose entry for `A` has exhausted the 5-message
budget of a window ending at time 1000. -/
def rlFull : List (String × RateLimit) := [("A", { count := 5, resetTime := 1000 })]

/-- `stC` with the exhausted rate-limit table `rlFull`. -/
def stR : ChatState := { players := stC.players, rateLimits := rlFull }

/-- A single idle player (`lastUpdate` 0) with a live rate-limit entry. -/
def stT : ChatState :=
  { players := [("A", mkP "a" "A" 0 0)]
    rateLimits := [("A", { count := 2, resetTime := 500 })] }

/-! ## Association-list helper lemmas -/

theorem getKey_mem {α : Type} {m : List (String × α)} {k : String} {v : α}
    (h : getKey m k = some v) : (k, v) ∈ m := by
  unfold getKey at h
  cases hf : m.find? (fun e => e.1 == k) with
  | none => rw [hf] at h; exact Option.noConfusion h
  | some e =>
    rw [hf] at h
    have hv : e.2 = v := Option.some.inj h
    have hmem := List.mem_of_find?_eq_some hf
    have hkey := List.find?_some hf
    simp only [beq_iff_eq] at hkey
    have he : e = (k, v) := by
      cases e with
      | mk a b =>
        simp only [beq_iff_eq] at hkey
        simp only at hv
        rw [hkey, hv]
    rwa [he] at hmem

theorem getKey_eq_none_of_forall {α : Type} {m : List (String × α)}
    {k : String} (h : ∀ e ∈ m, e.1 ≠ k) : getKey m k = none := by
  unfold getKey
  have : m.find? (fun e => e.1 == k) = none := by
    rw [List.find?_eq_none]
    intro e he
    simpa using h e he
  rw [this]; rfl

theorem getKey_unique {α : Type} {m : List (String × α)}
    (hN : (m.map Prod.fst).Nodup) {k : String} {v : α}
    (h : getKey m k = some v) : ∀ e ∈ m, e.1 = k → e = (k, v) := by
  intro e he hek
  have hkv := getKey_mem h
  have hinj := List.inj_on_of_nodup_map hN
  have := hinj he hkv (by simp [hek])
  exact this

theorem mem_setKey {α : Type} {m : List (String × α)} {k : String} {v : α}
    {e : String × α} (h : e ∈ setKey m k v) :
    e = (k, v) ∨ (e ∈ m ∧ e.1 ≠ k) := by
  unfold setKey at h
  by_cases hany : m.any (fun e => e.1 == k)
  · rw [if_pos hany] at h
    rcases List.mem_map.mp h with ⟨a, ha, hae⟩
    by_cases hak : a.1 == k
    · left; rw [if_pos hak] at hae; exact hae.symm
    · right
      rw [if_neg hak] at hae
      refine ⟨hae ▸ ha, ?_⟩
      rw [← hae]
      simpa using hak
  · rw [if_neg hany] at h
    rcases List.mem_append.mp h with hm | hs
    · right
      refine ⟨hm, ?_⟩
      intro hek
      exact hany (List.any_eq_true.mpr ⟨e, hm, by simp [hek]⟩)
    · left; simpa using hs

theorem getKey_setKey_self {α : Type} (m : List (String × α)) (k : String)
    (v : α) : getKey (setKey m k v) k = some v := by
  unfold setKey getKey
  by_cases hany : m.any (fun e => e.1 == k)
  · rw [if_pos hany]
    rcases List.any_eq_true.mp hany with ⟨a, ha, hak⟩
    induction m with
    | nil => cases ha
    | cons hd tl ih =>
      simp only [List.map_cons, List.find?_cons]
      by_cases hhd : hd.1 == k
      · rw [if_pos hhd]
        simp
      · rw [if_neg hhd]
        simp only [hhd, Bool.false_eq_true, if_false]
        rcases List.mem_cons.mp ha with rfl | ha'
        · exact absurd hak hhd
        · have hany' : tl.any (fun e => e.1 == k) :=
            List.any_eq_true.mpr ⟨a, ha', hak⟩
          exact ih hany' ha'
  · rw [if_neg hany]
    have hnone : m.find? (fun e => e.1 == k) = none := by
      rw [List.find?_eq_none]
      intro e he
      intro hek
      exact hany (List.any_eq_true.mpr ⟨e, he, hek⟩)
    rw [List.find?_append, hnone]
    simp

/-! ## C2: goal detection -/

/-- C2 counterexample: with the resting ball at (30, 260) — x inside the
left-goal range and y exactly at `goalTop`, hence inside the closed
interval `[goalTop, goalBottom]` — the tick does not score: blue's tally
and `isPlaying` are unchanged, because the code tests `ball.y > goalTop &&
ball.y < goalBottom` strictly. -/
theorem goal_boundary_not_scored :
    (physBall gBoundary.ball).x = some 30 ∧
    (physBall gBoundary.ball).y = some 260 ∧
    (30 : ℚ) < FIELD_PADDING - GOAL_DEPTH / 2 ∧
    goalTop ≤ (260 : ℚ) ∧ (260 : ℚ) ≤ goalBottom ∧
    gBoundary.fplayers ≠ [] ∧ gBoundary.isPlaying = true ∧
    (tick gBoundary 10).1.scoreBlue = gBoundary.scoreBlue ∧
    (tick gBoundary 10).1.isPlaying = true := by
  norm_num [tick, physBall, wallStep, gBoundary, g3, initBall, fp1,
    jadd, jmul, jsub, jlt, jle, jneZero, jabsLt, abs_of_nonneg, abs_of_nonpos,
    FIELD_WIDTH, FIELD_HEIGHT, FIELD_PADDING, GOAL_WIDTH, GOAL_DEPTH,
    BALL_FRICTION, BALL_MAX_SPEED, BALL_BOUNCE, BALL_SYNC_RATE,
    goalTop, goalBottom]

/-- C2 (amended: `y` strictly inside `(goalTop, goalBottom)`): if after the
physics phase of a tick the ball is at `x < padding - goalDepth/2` with
`goalTop < y < goalBottom`, then blue's score is incremented by exactly 1,
`isPlaying` becomes false, the tick performs no wall collision and no
periodic sync (the ball is exactly the post-physics ball, `lastBallSync` is
unchanged, and the only emission is the goal event), and the delayed reset
puts the ball at field center with zero velocity and `isPlaying = true`. -/
theorem left_goal_detection (g : Ground) (now : ℚ) (bx by' : ℚ)
    (hne : g.fplayers ≠ []) (hplay : g.isPlaying = true)
    (hbx : (physBall g.ball).x = some bx)
    (hby : (physBall g.ball).y = some by')
    (hx : bx < FIELD_PADDING - GOAL_DEPTH / 2)
    (hyt : goalTop < by') (hyb : by' < goalBottom) :
    (tick g now).1.scoreBlue = g.scoreBlue + 1 ∧
    (tick g now).1.scoreRed = g.scoreRed ∧
    (tick g now).1.isPlaying = false ∧
    (tick g now).1.ball = physBall g.ball ∧
    (tick g now).1.lastBallSync = g.lastBallSync ∧
    (tick g now).2 = [.goalScored "blue" g.scoreRed (g.scoreBlue + 1)
        (physBall g.ball).lastKickedBy] ∧
    (goalReset (tick g now).1).1.ball.x = some (FIELD_WIDTH / 2) ∧
    (goalReset (tick g now).1).1.ball.y = some (FIELD_HEIGHT / 2) ∧
    (goalReset (tick g now).1).1.ball.vx = some 0 ∧
    (goalReset (tick g now).1).1.ball.vy = some 0 ∧
    (goalReset (tick g now).1).1.isPlaying = true := by
  have hE : g.fplayers.isEmpty = false := by
    cases hg : g.fplayers with
    | nil => exact absurd hg hne
    | cons a l => rfl
  have hx' : jlt (physBall g.ball).x (some (FIELD_PADDING - GOAL_DEPTH / 2))
      = true := by rw [hbx]; simpa [jlt] using hx
  have hy1 : jlt (some goalTop) (physBall g.ball).y = true := by
    rw [hby]; simpa [jlt] using hyt
  have hy2 : jlt (physBall g.ball).y (some goalBottom) = true := by
    rw [hby]; simpa [jlt] using hyb
  simp [tick, hE, hplay, hx', hy1, hy2, goalReset, resetBall]

/-- C2 witness: the goal path at a concrete ground (`gGoal`). -/
theorem left_goal_detection_witness :
    (tick gGoal 10).1.scoreBlue = gGoal.scoreBlue + 1 ∧
    (tick gGoal 10).1.scoreRed = gGoal.scoreRed ∧
    (tick gGoal 10).1.isPlaying = false ∧
    (tick gGoal 10).1.ball = physBall gGoal.ball ∧
    (tick gGoal 10).1.lastBallSync = gGoal.lastBallSync ∧
    (tick gGoal 10).2 = [.goalScored "blue" gGoal.scoreRed
        (gGoal.scoreBlue + 1) (physBall gGoal.ball).lastKickedBy] ∧
    (goalReset (tick gGoal 10).1).1.ball.x = some (FIELD_WIDTH / 2) ∧
    (goalReset (tick gGoal 10).1).1.ball.y = some (FIELD_HEIGHT / 2) ∧
    (goalReset (tick gGoal 10).1).1.ball.vx = some 0 ∧
    (goalReset (tick gGoal 10).1).1.ball.vy = some 0 ∧
    (goalReset (tick gGoal 10).1).1.isPlaying = true :=
  left_goal_detection gGoal 10 30 261 (by simp [gGoal, g3]) (by rfl)
    (by norm_num [physBall, gGoal, g3, initBall, jadd, jmul, jsub, jlt,
      jneZero, jabsLt, abs_of_nonneg, abs_of_nonpos, BALL_FRICTION,
      BALL_MAX_SPEED])
    (by norm_num [physBall, gGoal, g3, initBall, jadd, jmul, jsub, jlt,
      jneZero, jabsLt, abs_of_nonneg, abs_of_nonpos, BALL_FRICTION,
      BALL_MAX_SPEED])
    (by norm_num [FIELD_PADDING, GOAL_DEPTH])
    (by norm_num [goalTop, FIELD_HEIGHT, GOAL_WIDTH])
    (by norm_num [goalTop, goalBottom, FIELD_HEIGHT, GOAL_WIDTH])

/-! ## C3: integration before friction -/

/-- C3: with the ball at field center, velocity (5, 0) and spin 0, one tick
advances `x` by exactly 5 (integration uses the pre-friction velocity) and
then sets `vx` to `5 * 0.985 = 4.925` (friction after integration); `y`,
`vy` and `spin` are unchanged (in particular `405 ≠ 400 + 5 * 0.985`, so
friction was not applied before integration). -/
theorem tick_integrates_before_friction :
    (tick g3 10).1.ball.x = some (400 + 5) ∧
    (tick g3 10).1.ball.vx = some (5 * BALL_FRICTION) ∧
    (5 : ℚ) * BALL_FRICTION = 4.925 ∧
    (400 : ℚ) + 5 ≠ 400 + 5 * BALL_FRICTION ∧
    (tick g3 10).1.ball.y = some 300 ∧
    (tick g3 10).1.ball.vy = some 0 ∧
    (tick g3 10).1.ball.spin = some 0 := by
  norm_num [tick, physBall, wallStep, g3, initBall, fp1,
    jadd, jmul, jsub, jlt, jle, jneZero, jabsLt, abs_of_nonneg, abs_of_nonpos,
    FIELD_WIDTH, FIELD_HEIGHT, FIELD_PADDING, GOAL_WIDTH, GOAL_DEPTH,
    BALL_FRICTION, BALL_MAX_SPEED, BALL_BOUNCE, BALL_SYNC_RATE,
    goalTop, goalBottom]

/-! ## C9: the reset ball record -/

/-- C9: the goal-reset callback replaces the ball by a record with only
position (field center), velocity (zero) and a null `lastKickedBy`; its
`spin` and `lastKickTime` are absent (`none`) — unlike the initial ball,
whose spin is the number 0 — and stay absent until the next successful kick
writes `spin` again. -/
theorem reset_ball_omits_spin (g g2 : Ground) (sid : String) (p : FPlayer)
    (d : KickData) (now : ℚ)
    (hreg : getKey g2.fplayers sid = some p) (hplay : g2.isPlaying = true)
    (hcd : kickOnCooldown p.lastKickTime now = false) :
    (goalReset g).1.ball = resetBall ∧
    resetBall.spin = none ∧
    resetBall.lastKickTime = none ∧
    initBall.spin = some 0 ∧
    resetBall.spin ≠ initBall.spin ∧
    resetBall.x = some (FIELD_WIDTH / 2) ∧
    resetBall.y = some (FIELD_HEIGHT / 2) ∧
    resetBall.vx = some 0 ∧
    resetBall.vy = some 0 ∧
    resetBall.lastKickedBy = none ∧
    (goalReset g).1.isPlaying = true ∧
    (footballKick g2 sid d now).1.ball.spin = some (jor0 d.spin) := by
  refine ⟨rfl, rfl, rfl, rfl, by simp [resetBall, initBall],
    rfl, rfl, rfl, rfl, rfl, rfl, ?_⟩
  simp [footballKick, hreg, hplay, hcd]

/-- C9 witness: after a reset, a concrete successful kick writes spin 0
back into the ball. -/
theorem reset_ball_omits_spin_witness :
    (goalReset g3).1.ball = resetBall ∧
    resetBall.spin = none ∧
    resetBall.lastKickTime = none ∧
    initBall.spin = some 0 ∧
    resetBall.spin ≠ initBall.spin ∧
    resetBall.x = some (FIELD_WIDTH / 2) ∧
    resetBall.y = some (FIELD_HEIGHT / 2) ∧
    resetBall.vx = some 0 ∧
    resetBall.vy = some 0 ∧
    resetBall.lastKickedBy = none ∧
    (goalReset g3).1.isPlaying = true ∧
    (footballKick { g3 with ball := resetBall } "p"
        { vx := some 3, vy := some 4, spin := none } 1000).1.ball.spin =
      some (jor0 none) :=
  reset_ball_omits_spin g3 { g3 with ball := resetBall } "p" fp1
    { vx := some 3, vy := some 4, spin := none } 1000
    (by rfl) (by rfl) (by rfl)

/-! ## Chat handler helper -/

/-- The `chat:message` handler on the success path: explicit echo + fan-out
event list and rate-limit-only state change. -/
theorem chatMessage_events (st : ChatState) (sid : String) (p : Player)
    (d : JsInput) (now : ℚ) (text : String)
    (hp : getKey st.players sid = some p)
    (hrl : (checkRateLimit st.rateLimits sid now).1 = true)
    (hsan : sanitizeMessage d = some text) :
    (chatMessage st sid d now).2 =
      .chatReceived sid (mkChatMsg sid p text now) ::
        (getNearbyPlayers st.players sid PROXIMITY_THRESHOLD_SQ).map
          (fun e => .chatReceived e.1 (mkChatMsg sid p text now)) ∧
    (chatMessage st sid d now).1.players = st.players ∧
    (chatMessage st sid d now).1.rateLimits =
      (checkRateLimit st.rateLimits sid now).2 := by
  simp [chatMessage, hp, hrl, hsan]

/-! ## C4: sanitization -/

theorem escapeChar_length_le (c : Char) : (escapeChar c).length ≤ 6 := by
  unfold escapeChar
  by_cases h1 : c = '<'
  · simp [h1]
  · by_cases h2 : c = '>'
    · simp [h1, h2]
    · by_cases h3 : c = '"'
      · simp [h1, h2, h3]
      · simp [h1, h2, h3]

theorem flatMap_escapeChar_length_le (l : List Char) :
    (l.flatMap escapeChar).length ≤ 6 * l.length := by
  induction l with
  | nil => simp
  | cons c cs ih =>
    rw [List.flatMap_cons, List.length_append]
    have hc := escapeChar_length_le c
    simp only [List.length_cons]
    omega

set_option maxRecDepth 8192 in
/-- C4 counterexample: the 51-`<` input is delivered with 204 characters,
exceeding the claimed 200-character bound on delivered text (truncation to
200 happens before entity escaping, which expands each `<` to 4
characters). -/
theorem delivered_text_longer_than_200 :
    (sanitizeMessage (.jstr ltString)).map String.length = some 204 ∧
    Event.chatReceived "B" (mkChatMsg "A" (mkP "a" "A" 0 0) (escapeHtml ltString) 7)
        ∈ (chatMessage stC "A" (.jstr ltString) 7).2 ∧
    MESSAGE_MAX_LENGTH < 204 := by
  have hsan : sanitizeMessage (.jstr ltString) = some (escapeHtml ltString) := by
    decide
  have hp : getKey stC.players "A" = some (mkP "a" "A" 0 0) := by rfl
  have hrl : (checkRateLimit stC.rateLimits "A" 7).1 = true := by
    norm_num [checkRateLimit, getKey, stC, MESSAGE_RATE_LIMIT]
  have hev := (chatMessage_events stC "A" (mkP "a" "A" 0 0) (.jstr ltString) 7
    (escapeHtml ltString) hp hrl hsan).1
  refine ⟨by rw [hsan]; decide, ?_, by decide⟩
  rw [hev]
  have hnear : getNearbyPlayers stC.players "A" PROXIMITY_THRESHOLD_SQ =
      [("B", mkP "b" "B" 200 0)] := by
    norm_num [getNearbyPlayers, getKey, stC, mkP, distSq, jle, jsub, jmul,
      jadd, PROXIMITY_THRESHOLD_SQ, List.filter]
    decide
  rw [hnear]
  simp

/-- C4 (amended): the delivered message text is the input trimmed of
surrounding whitespace, truncated to at most 200 characters, and then
entity-escaped (`<`→`&lt;`, `>`→`&gt;`, `"`→`&quot;`), so `<script>` is
delivered as `&lt;script&gt;`; an input that trims to empty or is not a
string yields no delivery and no registry change, but the rate-limit slot
consumed before sanitization stays consumed; truncation to 200 characters
happens before escaping, so the delivered text arises from at most 200
pre-escape characters and is at most 6 × 200 characters long after entity
expansion (it can exceed 200 — see the counterexample). -/
theorem sanitize_contract (st : ChatState) (sid : String) (p : Player)
    (d : JsInput) (now : ℚ) (text : String) (s : String)
    (hp : getKey st.players sid = some p)
    (hrl : (checkRateLimit st.rateLimits sid now).1 = true) :
    (sanitizeMessage (.jstr s) = some text →
      text = escapeHtml (String.mk ((trimChars s.data).take MESSAGE_MAX_LENGTH)) ∧
      ((trimChars s.data).take MESSAGE_MAX_LENGTH).length ≤ MESSAGE_MAX_LENGTH ∧
      text.length ≤ 6 * MESSAGE_MAX_LENGTH) ∧
    (sanitizeMessage d = some text →
      ∀ e ∈ (chatMessage st sid d now).2,
        ∃ dest, e = .chatReceived dest (mkChatMsg sid p text now)) ∧
    (sanitizeMessage d = none →
      (chatMessage st sid d now).2 = [] ∧
      (chatMessage st sid d now).1.players = st.players ∧
      (chatMessage st sid d now).1.rateLimits =
        (checkRateLimit st.rateLimits sid now).2) ∧
    sanitizeMessage (.jstr "<script>") = some "&lt;script&gt;" ∧
    sanitizeMessage (.jstr "   ") = none ∧
    sanitizeMessage .jother = none := by
  refine ⟨?_, ?_, ?_, by decide, by decide, rfl⟩
  · intro h
    simp only [sanitizeMessage] at h
    by_cases h0 : ((trimChars s.data).take MESSAGE_MAX_LENGTH).length = 0
    · rw [if_pos h0] at h
      exact absurd h (by simp)
    · rw [if_neg h0] at h
      have ht := (Option.some.inj h).symm
      refine ⟨ht, List.length_take_le _ _, ?_⟩
      rw [ht]
      have hb := flatMap_escapeChar_length_le
        ((trimChars s.data).take MESSAGE_MAX_LENGTH)
      have hl : ((trimChars s.data).take MESSAGE_MAX_LENGTH).length ≤
          MESSAGE_MAX_LENGTH := List.length_take_le _ _
      calc (escapeHtml (String.mk ((trimChars s.data).take MESSAGE_MAX_LENGTH))).length
          = (((trimChars s.data).take MESSAGE_MAX_LENGTH).flatMap escapeChar).length := rfl
        _ ≤ 6 * ((trimChars s.data).take MESSAGE_MAX_LENGTH).length := hb
        _ ≤ 6 * MESSAGE_MAX_LENGTH := by omega
  · intro hsan e he
    have hev := (chatMessage_events st sid p d now text hp hrl hsan).1
    rw [hev] at he
    rcases List.mem_cons.mp he with rfl | hmem
    · exact ⟨sid, rfl⟩
    · rcases List.mem_map.mp hmem with ⟨a, _, hae⟩
      exact ⟨a.1, hae.symm⟩
  · intro hsan
    simp [chatMessage, hp, hrl, hsan]

/-- C4 witness: the `<script>` input is delivered escaped, at a concrete
state. -/
theorem sanitize_contract_witness :
    ("&lt;script&gt;" : String) =
      escapeHtml (String.mk ((trimChars "<script>".data).take MESSAGE_MAX_LENGTH)) ∧
    sanitizeMessage (.jstr "<script>") = some "&lt;script&gt;" ∧
    sanitizeMessage (.jstr "   ") = none := by
  have h := sanitize_contract stC "A" (mkP "a" "A" 0 0) (.jstr "<script>") 7
    "&lt;script&gt;" "<script>" (by rfl)
    (by norm_num [checkRateLimit, getKey, stC, MESSAGE_RATE_LIMIT])
  exact ⟨(h.1 (by decide)).1, h.2.2.2.1, h.2.2.2.2.1⟩

/-! ## C5: rate limiting -/

theorem checkRateLimit_reject {rl : List (String × RateLimit)} {sid : String}
    {now : ℚ} {l : RateLimit} (hl : getKey rl sid = some l)
    (hwin : now ≤ l.resetTime) (hcount : l.count ≥ MESSAGE_RATE_LIMIT) :
    checkRateLimit rl sid now = (false, rl) := by
  dsimp only [checkRateLimit]
  rw [hl]
  simp only [Option.getD_some]
  rw [if_neg (not_lt.mpr hwin), if_pos hcount]

theorem checkRateLimit_incr {rl : List (String × RateLimit)} {sid : String}
    {now : ℚ} {l : RateLimit} (hl : getKey rl sid = some l)
    (hwin : now ≤ l.resetTime) (hcount : l.count < MESSAGE_RATE_LIMIT) :
    checkRateLimit rl sid now =
      (true, setKey rl sid { count := l.count + 1, resetTime := l.resetTime }) := by
  dsimp only [checkRateLimit]
  rw [hl]
  simp only [Option.getD_some]
  rw [if_neg (not_lt.mpr hwin), if_neg (by omega)]

theorem checkRateLimit_reset {rl : List (String × RateLimit)} {sid : String}
    {now : ℚ} {l : RateLimit} (hl : getKey rl sid = some l)
    (hwin : now > l.resetTime) :
    checkRateLimit rl sid now =
      (true, setKey rl sid { count := 1, resetTime := now + 1000 }) := by
  dsimp only [checkRateLimit]
  rw [hl]
  simp only [Option.getD_some]
  rw [if_pos hwin]

theorem checkRateLimit_fresh {rl : List (String × RateLimit)} {sid : String}
    {now : ℚ} (hl : getKey rl sid = none) :
    checkRateLimit rl sid now =
      (true, setKey rl sid { count := 1, resetTime := now + 1000 }) := by
  dsimp only [checkRateLimit]
  rw [hl]
  simp only [Option.getD_none]
  rw [if_neg (by linarith), if_neg (by norm_num [MESSAGE_RATE_LIMIT])]

theorem checkRateLimit_of_false {rl : List (String × RateLimit)}
    {sid : String} {now : ℚ} (h : (checkRateLimit rl sid now).1 = false) :
    checkRateLimit rl sid now = (false, rl) := by
  cases hk : getKey rl sid with
  | none => rw [checkRateLimit_fresh hk] at h; exact absurd h (by simp)
  | some l =>
    by_cases hw : now > l.resetTime
    · rw [checkRateLimit_reset hk hw] at h; exact absurd h (by simp)
    · by_cases hc : l.count ≥ MESSAGE_RATE_LIMIT
      · exact checkRateLimit_reject hk (not_lt.mp hw) hc
      · rw [checkRateLimit_incr hk (not_lt.mp hw) (lt_of_not_ge hc)] at h
        exact absurd h (by simp)

/-- C5: the fixed-window rate limiter.  For a connection with a stored
window: inside the window (`now ≤ resetTime`) a call with `count ≥ 5` is
rejected and leaves the table unchanged (so every 6th and later message of
a window is rejected until the window expires), and a call with `count < 5`
is accepted, incrementing only the count; once `now > resetTime` (a fixed,
not sliding, window) the entry is reset to count 1 with a fresh
1-second window, as is a missing entry; the stored count never exceeds 5;
and a rejected `chat:message` emits exactly one rate-limit error to the
sender, with no broadcast and no other state change. -/
theorem rate_limit_fixed_window (rl : List (String × RateLimit))
    (sid : String) (now : ℚ) (l : RateLimit) (st : ChatState) (d : JsInput)
    (p : Player) :
    (getKey rl sid = some l → now ≤ l.resetTime →
      l.count ≥ MESSAGE_RATE_LIMIT → checkRateLimit rl sid now = (false, rl)) ∧
    (getKey rl sid = some l → now ≤ l.resetTime →
      l.count < MESSAGE_RATE_LIMIT → checkRateLimit rl sid now =
        (true, setKey rl sid { count := l.count + 1, resetTime := l.resetTime })) ∧
    (getKey rl sid = some l → now > l.resetTime → checkRateLimit rl sid now =
        (true, setKey rl sid { count := 1, resetTime := now + 1000 })) ∧
    (getKey rl sid = none → checkRateLimit rl sid now =
        (true, setKey rl sid { count := 1, resetTime := now + 1000 })) ∧
    ((∀ e ∈ rl, e.2.count ≤ MESSAGE_RATE_LIMIT) →
      ∀ e ∈ (checkRateLimit rl sid now).2, e.2.count ≤ MESSAGE_RATE_LIMIT) ∧
    (getKey st.players sid = some p →
      (checkRateLimit st.rateLimits sid now).1 = false →
      (chatMessage st sid d now).2 = [.chatError sid] ∧
      (chatMessage st sid d now).1.players = st.players ∧
      (chatMessage st sid d now).1.rateLimits = st.rateLimits) := by
  refine ⟨fun hl hw hc => checkRateLimit_reject hl hw hc,
    fun hl hw hc => checkRateLimit_incr hl hw hc,
    fun hl hw => checkRateLimit_reset hl hw,
    fun hl => checkRateLimit_fresh hl, ?_, ?_⟩
  · intro hinv e he
    cases hk : getKey rl sid with
    | none =>
      rw [checkRateLimit_fresh hk] at he
      rcases mem_setKey he with rfl | ⟨hm, _⟩
      · norm_num [MESSAGE_RATE_LIMIT]
      · exact hinv e hm
    | some l' =>
      by_cases hw : now > l'.resetTime
      · rw [checkRateLimit_reset hk hw] at he
        rcases mem_setKey he with rfl | ⟨hm, _⟩
        · norm_num [MESSAGE_RATE_LIMIT]
        · exact hinv e hm
      · by_cases hc : l'.count ≥ MESSAGE_RATE_LIMIT
        · rw [checkRateLimit_reject hk (not_lt.mp hw) hc] at he
          exact hinv e he
        · rw [checkRateLimit_incr hk (not_lt.mp hw) (lt_of_not_ge hc)] at he
          rcases mem_setKey he with rfl | ⟨hm, _⟩
          · have : l'.count < MESSAGE_RATE_LIMIT := lt_of_not_ge hc
            simp only
            omega
          · exact hinv e hm
  · intro hp hrl
    have hrw := checkRateLimit_of_false hrl
    simp [chatMessage, hp, hrl, hrw]

/-- C5 witness: with a full window (count 5, reset at 1000), a send at 500
is rejected with a single error event to the sender and no state change,
and a send at 1500 (after the window) is accepted with a reset count of
1. -/
theorem rate_limit_fixed_window_witness :
    checkRateLimit rlFull "A" 500 = (false, rlFull) ∧
    checkRateLimit rlFull "A" 1500 =
      (true, setKey rlFull "A" { count := 1, resetTime := 1500 + 1000 }) ∧
    (chatMessage stR "A" (.jstr "hi") 500).2 = [.chatError "A"] ∧
    (chatMessage stR "A" (.jstr "hi") 500).1.players = stR.players ∧
    (chatMessage stR "A" (.jstr "hi") 500).1.rateLimits = stR.rateLimits := by
  have h := rate_limit_fixed_window rlFull "A" 500
    { count := 5, resetTime := 1000 } stR (.jstr "hi") (mkP "a" "A" 0 0)
  have h1 := h.1 (by rfl) (by norm_num) (by norm_num [MESSAGE_RATE_LIMIT])
  have h3 := (rate_limit_fixed_window rlFull "A" 1500
    { count := 5, resetTime := 1000 } stR (.jstr "hi") (mkP "a" "A" 0 0)).2.2.1
    (by rfl) (by norm_num)
  have h6 := h.2.2.2.2.2 (by rfl) (by simp only [stR]; rw [h1])
  exact ⟨h1, h3, h6.1, h6.2.1, h6.2.2⟩

/-! ## C7: kick contract -/

/-- C7: `football:kick` is a no-op (whole state unchanged, nothing emitted)
when the sender is not a registered football player, when the match is not
playing, or when the sender's own record shows a previous kick less than
300 ms ago (the cooldown guard reads `player.lastKickTime`, i.e. it is
per-player, not global); otherwise the ball's velocity and spin are
overwritten with the kick payload (not summed with the old values), the
kicker id and kick time are recorded on the ball, the kicker's record gets
the new kick time, and the new ball state is broadcast immediately as the
only emission. -/
theorem kick_contract (g : Ground) (sid : String) (p : FPlayer)
    (d : KickData) (now t : ℚ) :
    (getKey g.fplayers sid = none → footballKick g sid d now = (g, [])) ∧
    (g.isPlaying = false → footballKick g sid d now = (g, [])) ∧
    (p.lastKickTime = some t → t ≠ 0 → now - t < KICK_COOLDOWN →
      kickOnCooldown p.lastKickTime now = true) ∧
    (p.lastKickTime = none → kickOnCooldown p.lastKickTime now = false) ∧
    (getKey g.fplayers sid = some p → kickOnCooldown p.lastKickTime now = true →
      footballKick g sid d now = (g, [])) ∧
    (getKey g.fplayers sid = some p → g.isPlaying = true →
      kickOnCooldown p.lastKickTime now = false →
      (footballKick g sid d now).1.ball =
        { g.ball with
          vx := d.vx
          vy := d.vy
          spin := some (jor0 d.spin)
          lastKickedBy := some sid
          lastKickTime := some now } ∧
      (footballKick g sid d now).1.fplayers =
        setKey g.fplayers sid { p with lastKickTime := some now } ∧
      (footballKick g sid d now).1.scoreRed = g.scoreRed ∧
      (footballKick g sid d now).1.scoreBlue = g.scoreBlue ∧
      (footballKick g sid d now).1.isPlaying = g.isPlaying ∧
      (footballKick g sid d now).2 =
        [.ballUpdate { g.ball with
          vx := d.vx
          vy := d.vy
          spin := some (jor0 d.spin)
          lastKickedBy := some sid
          lastKickTime := some now }]) := by
  refine ⟨?_, ?_, ?_, ?_, ?_, ?_⟩
  · intro h
    simp [footballKick, h]
  · intro h
    cases hk : getKey g.fplayers sid with
    | none => simp [footballKick, hk]
    | some q => simp [footballKick, hk, h]
  · intro hl ht hcd
    simp [kickOnCooldown, hl, ht, hcd]
  · intro hl
    simp [kickOnCooldown, hl]
  · intro hreg hcd
    cases hp : g.isPlaying with
    | false => simp [footballKick, hreg, hp]
    | true => simp [footballKick, hreg, hp, hcd]
  · intro hreg hplay hcd
    simp [footballKick, hreg, hplay, hcd]

/-- C7 witness: a fresh player's kick at time 1000 overwrites the ball and
is broadcast; a second kick 200 ms later from the same player is a no-op
with the ball unchanged. -/
theorem kick_contract_witness :
    (footballKick g3 "p" { vx := some 7, vy := some (-2), spin := none }
        1000).1.ball =
      { g3.ball with
        vx := some 7
        vy := some (-2)
        spin := some (jor0 none)
        lastKickedBy := some "p"
        lastKickTime := some 1000 } ∧
    footballKick (footballKick g3 "p"
        { vx := some 7, vy := some (-2), spin := none } 1000).1 "p"
        { vx := some 9, vy := some 0, spin := some 1 } 1200 =
      ((footballKick g3 "p" { vx := some 7, vy := some (-2), spin := none }
        1000).1, []) := by
  have h1 := (kick_contract g3 "p" fp1
    { vx := some 7, vy := some (-2), spin := none } 1000 0).2.2.2.2.2
    (by rfl) (by rfl) (by rfl)
  refine ⟨h1.1, ?_⟩
  have hreg2 : getKey (footballKick g3 "p"
      { vx := some 7, vy := some (-2), spin := none } 1000).1.fplayers "p" =
      some { fp1 with lastKickTime := some 1000 } := by
    rw [h1.2.1]
    simp only [g3]
    rfl
  have hcd2 : kickOnCooldown (some (1000 : ℚ)) 1200 = true :=
    (kick_contract g3 "p" { fp1 with lastKickTime := some 1000 }
      { vx := some 9, vy := some 0, spin := some 1 } 1200 1000).2.2.1
      (by rfl) (by norm_num) (by norm_num [KICK_COOLDOWN])
  exact (kick_contract (footballKick g3 "p"
      { vx := some 7, vy := some (-2), spin := none } 1000).1 "p"
      { fp1 with lastKickTime := some 1000 }
      { vx := some 9, vy := some 0, spin := some 1 } 1200 1000).2.2.2.2.1
    hreg2 hcd2

/-! ## C8: malformed payloads -/

/-- C8 counterexample: a position payload with both coordinates missing is
not rejected — the handler stores the undefined coordinates, advances
`lastUpdate`, and broadcasts — so the server state does change, contrary to
the claim that malformed payloads leave all state unchanged. -/
theorem malformed_position_mutates_state :
    getKey stC.players "A" = some (mkP "a" "A" 0 0) ∧
    (playerPosition stC "A" { x := none, y := none } 100).1 ≠ stC ∧
    getKey (playerPosition stC "A" { x := none, y := none } 100).1.players "A" =
      some { mkP "a" "A" 0 0 with x := none, y := none, lastUpdate := 100 } ∧
    (playerPosition stC "A" { x := none, y := none } 100).2.head? =
      some (.playerMovedB "A" none none) := by
  refine ⟨rfl, ?_, ?_, ?_⟩
  · intro h
    have hx := congrArg (fun st => getKey st.players "A") h
    simp only at hx
    have : getKey (playerPosition stC "A" { x := none, y := none } 100).1.players "A" =
        some { mkP "a" "A" 0 0 with x := none, y := none, lastUpdate := 100 } := by
      norm_num [playerPosition, stC, mkP, POSITION_UPDATE_THROTTLE, getKey,
        setKey]
    rw [this] at hx
    have hx' := Option.some.inj hx
    have := congrArg Player.x hx'
    simp [mkP] at this
  · norm_num [playerPosition, stC, mkP, POSITION_UPDATE_THROTTLE, getKey,
      setKey]
  · norm_num [playerPosition, stC, mkP, POSITION_UPDATE_THROTTLE, getKey,
      setKey]

/-- C8 (amended, restricted to what the code does): the `player:position`
handler never throws (it is a total function of any payload object) and is
a strict no-op only for an unknown sender or a throttled update; an
accepted update is stored and broadcast verbatim, with no validation — a
payload with missing or non-numeric `x`/`y` overwrites the stored position
with those non-number values and advances `lastUpdate`, so server state
does change. -/
theorem position_update_no_validation (st : ChatState) (sid : String)
    (d : PosData) (now : ℚ) (p : Player) :
    (getKey st.players sid = none → playerPosition st sid d now = (st, [])) ∧
    (getKey st.players sid = some p →
      now - p.lastUpdate < POSITION_UPDATE_THROTTLE →
      playerPosition st sid d now = (st, [])) ∧
    (getKey st.players sid = some p →
      ¬ now - p.lastUpdate < POSITION_UPDATE_THROTTLE →
      (playerPosition st sid d now).1.players =
        setKey st.players sid { p with x := d.x, y := d.y, lastUpdate := now } ∧
      (playerPosition st sid d now).1.rateLimits = st.rateLimits ∧
      (playerPosition st sid d now).2.head? =
        some (.playerMovedB sid d.x d.y)) := by
  refine ⟨?_, ?_, ?_⟩
  · intro h
    simp [playerPosition, h]
  · intro h hth
    simp [playerPosition, h, hth]
  · intro h hth
    simp [playerPosition, h, hth]

/-- C8 witness: an accepted malformed update at a concrete state. -/
theorem position_update_no_validation_witness :
    (playerPosition stC "A" { x := none, y := none } 100).1.players =
      setKey stC.players "A"
        { mkP "a" "A" 0 0 with x := none, y := none, lastUpdate := 100 } ∧
    (playerPosition stC "A" { x := none, y := none } 100).1.rateLimits =
      stC.rateLimits ∧
    (playerPosition stC "A" { x := none, y := none } 100).2.head? =
      some (.playerMovedB "A" none none) :=
  (position_update_no_validation stC "A" { x := none, y := none } 100
    (mkP "a" "A" 0 0)).2.2 (by rfl)
    (by norm_num [mkP, POSITION_UPDATE_THROTTLE])

/-! ## More association-list lemmas -/

theorem filter_eq_singleton_of {α : Type} {l : List α} {P : α → Bool} {a : α}
    (hNd : l.Nodup) (ha : a ∈ l) (hPa : P a = true)
    (huniq : ∀ e ∈ l, P e = true → e = a) : l.filter P = [a] := by
  induction l with
  | nil => cases ha
  | cons b t ih =>
    by_cases hba : b = a
    · subst hba
      rw [List.filter_cons_of_pos hPa]
      have ht : t.filter P = [] := by
        rw [List.filter_eq_nil_iff]
        intro e he hPe
        have heb := huniq e (List.mem_cons_of_mem _ he) hPe
        subst heb
        exact (List.nodup_cons.mp hNd).1 he
      rw [ht]
    · have hb : ¬ P b = true := fun hPb =>
        hba (huniq b (List.mem_cons_self b t) hPb)
      rw [List.filter_cons_of_neg hb]
      have hat : a ∈ t := by
        rcases List.mem_cons.mp ha with h | h
        · exact absurd h.symm hba
        · exact h
      exact ih (List.nodup_cons.mp hNd).2 hat
        (fun e he hPe => huniq e (List.mem_cons_of_mem _ he) hPe)

theorem keys_setKey_of_any {α : Type} {m : List (String × α)} {k : String}
    (v : α) (hany : m.any (fun e => e.1 == k) = true) :
    (setKey m k v).map Prod.fst = m.map Prod.fst := by
  unfold setKey
  rw [if_pos hany, List.map_map]
  apply List.map_congr_left
  intro e _
  simp only [Function.comp_apply]
  by_cases hek : e.1 = k
  · rw [if_pos (by simpa using hek)]
    exact hek.symm
  · rw [if_neg (by simpa using hek)]

theorem nodup_keys_setKey {α : Type} {m : List (String × α)}
    (hN : (m.map Prod.fst).Nodup) (k : String) (v : α) :
    ((setKey m k v).map Prod.fst).Nodup := by
  by_cases hany : m.any (fun e => e.1 == k)
  · rw [keys_setKey_of_any v hany]
    exact hN
  · unfold setKey
    rw [if_neg hany, List.map_append]
    refine List.Nodup.append hN (by simp) ?_
    intro x hx hk
    simp only [List.map_cons, List.map_nil, List.mem_singleton] at hk
    subst hk
    rcases List.mem_map.mp hx with ⟨e, he, hek⟩
    exact hany (List.any_eq_true.mpr ⟨e, he, by simp [hek]⟩)

/-! ## C1: proximity delivery -/

/-- C1: for registered connections A ≠ B with numeric stored positions, a
chat message from A that passes rate limiting and sanitization is delivered
to B exactly when the Euclidean distance between the stored positions at
send time is at most the 200-unit proximity threshold; a distance exactly
equal to the threshold counts as within (the code compares squared distance
with `<=`). -/
theorem chat_delivery_iff_within_threshold
    (st : ChatState) (sidA sidB : String) (pA pB : Player)
    (ax ay bx by' : ℚ) (d : JsInput) (now : ℚ) (text : String)
    (hN : (st.players.map Prod.fst).Nodup)
    (hA : getKey st.players sidA = some pA)
    (hB : getKey st.players sidB = some pB)
    (hAB : sidB ≠ sidA)
    (hax : pA.x = some ax) (hay : pA.y = some ay)
    (hbx : pB.x = some bx) (hby : pB.y = some by')
    (hrl : (checkRateLimit st.rateLimits sidA now).1 = true)
    (hsan : sanitizeMessage d = some text) :
    (Event.chatReceived sidB (mkChatMsg sidA pA text now)
        ∈ (chatMessage st sidA d now).2) ↔
      Real.sqrt (((ax : ℝ) - bx) ^ 2 + ((ay : ℝ) - by') ^ 2) ≤
        ((PROXIMITY_THRESHOLD : ℚ) : ℝ) := by
  have hev := (chatMessage_events st sidA pA d now text hA hrl hsan).1
  rw [hev]
  have hnear : getNearbyPlayers st.players sidA PROXIMITY_THRESHOLD_SQ =
      st.players.filter (fun e =>
        e.1 != sidA && jle (distSq pA e.2) (some PROXIMITY_THRESHOLD_SQ)) := by
    simp [getNearbyPlayers, hA]
  rw [hnear]
  have h1 : (Event.chatReceived sidB (mkChatMsg sidA pA text now) ∈
      Event.chatReceived sidA (mkChatMsg sidA pA text now) ::
        (st.players.filter (fun e =>
          e.1 != sidA && jle (distSq pA e.2) (some PROXIMITY_THRESHOLD_SQ))).map
          (fun e => Event.chatReceived e.1 (mkChatMsg sidA pA text now))) ↔
      (∃ e ∈ st.players.filter (fun e =>
        e.1 != sidA && jle (distSq pA e.2) (some PROXIMITY_THRESHOLD_SQ)),
        e.1 = sidB) := by
    simp only [List.mem_cons, List.mem_map, Event.chatReceived.injEq, and_true]
    constructor
    · rintro (h | ⟨e, he, h⟩)
      · exact absurd h hAB
      · exact ⟨e, he, h⟩
    · rintro ⟨e, he, h⟩
      exact Or.inr ⟨e, he, h⟩
  rw [h1]
  have h2 : (∃ e ∈ st.players.filter (fun e =>
      e.1 != sidA && jle (distSq pA e.2) (some PROXIMITY_THRESHOLD_SQ)),
      e.1 = sidB) ↔
      jle (distSq pA pB) (some PROXIMITY_THRESHOLD_SQ) = true := by
    constructor
    · rintro ⟨e, he, hkey⟩
      rcases List.mem_filter.mp he with ⟨hmem, hpred⟩
      have heB : e = (sidB, pB) := getKey_unique hN hB e hmem hkey
      subst heB
      have hpred' : (sidB != sidA) = true ∧
          jle (distSq pA pB) (some PROXIMITY_THRESHOLD_SQ) = true := by
        simpa using hpred
      exact hpred'.2
    · intro hd
      refine ⟨(sidB, pB), List.mem_filter.mpr ⟨getKey_mem hB, ?_⟩, rfl⟩
      simp [hAB, hd]
  rw [h2]
  have h3 : distSq pA pB =
      some ((ax - bx) * (ax - bx) + (ay - by') * (ay - by')) := by
    simp [distSq, jsub, jmul, jadd, hax, hay, hbx, hby]
  rw [h3]
  have h4 : jle (some ((ax - bx) * (ax - bx) + (ay - by') * (ay - by')))
      (some PROXIMITY_THRESHOLD_SQ) = true ↔
      (ax - bx) * (ax - bx) + (ay - by') * (ay - by') ≤
        PROXIMITY_THRESHOLD_SQ := by
    simp [jle]
  rw [h4]
  have hT : (0 : ℝ) ≤ ((PROXIMITY_THRESHOLD : ℚ) : ℝ) := by
    norm_num [PROXIMITY_THRESHOLD]
  rw [Real.sqrt_le_left hT]
  have hS : ((ax : ℝ) - bx) ^ 2 + ((ay : ℝ) - by') ^ 2 =
      (((ax - bx) * (ax - bx) + (ay - by') * (ay - by') : ℚ) : ℝ) := by
    push_cast
    ring
  have hT2 : ((PROXIMITY_THRESHOLD : ℚ) : ℝ) ^ 2 =
      ((PROXIMITY_THRESHOLD_SQ : ℚ) : ℝ) := by
    norm_num [PROXIMITY_THRESHOLD, PROXIMITY_THRESHOLD_SQ]
  rw [hS, hT2, Rat.cast_le]

/-- C1 witness: at distance exactly 200 (the boundary), the message is
delivered. -/
theorem chat_delivery_iff_within_threshold_witness :
    Event.chatReceived "B" (mkChatMsg "A" (mkP "a" "A" 0 0) "hi" 7)
      ∈ (chatMessage stC "A" (.jstr "hi") 7).2 := by
  refine (chat_delivery_iff_within_threshold stC "A" "B" (mkP "a" "A" 0 0)
    (mkP "b" "B" 200 0) 0 0 200 0 (.jstr "hi") 7 "hi"
    (by decide) rfl rfl (by decide) rfl rfl rfl rfl
    (by norm_num [checkRateLimit, getKey, stC, MESSAGE_RATE_LIMIT])
    (by decide)).mpr ?_
  have hS : (((0 : ℚ) : ℝ) - ((200 : ℚ) : ℝ)) ^ 2 +
      (((0 : ℚ) : ℝ) - ((0 : ℚ) : ℝ)) ^ 2 = 200 ^ 2 := by
    norm_num
  rw [hS, Real.sqrt_sq (by norm_num)]
  norm_num [PROXIMITY_THRESHOLD]

/-! ## C6: duplicate-identity eviction on join -/

/-- C6 counterexample: a connection re-joining on its own socket id with an
identity matching its existing registry entry triggers no eviction: no
`player:left` broadcast and no forced disconnect are emitted for that
matching pre-existing entry (the eviction loop skips the joiner's own
socket id), although the claim as stated requires them for every matching
pre-existing entry. -/
theorem rejoin_same_socket_no_eviction :
    matchesIdentity (mkP "u" "N" 0 0) dJoin.userId dJoin.nickname = true ∧
    getKey stJ.players "s1" = some (mkP "u" "N" 0 0) ∧
    (playerJoin stJ "s1" dJoin 5).2 =
      [.playerJoinedB "s1" (mkJoinPlayer dJoin 5),
       .playersList "s1" [("s2", mkP "v" "M" 0 0)]] ∧
    Event.playerLeftB "s1" ∉ (playerJoin stJ "s1" dJoin 5).2 ∧
    Event.disconnectSock "s1" ∉ (playerJoin stJ "s1" dJoin 5).2 := by
  refine ⟨rfl, rfl, rfl, ?_, ?_⟩
  · intro h
    rw [(rfl : (playerJoin stJ "s1" dJoin 5).2 =
      [.playerJoinedB "s1" (mkJoinPlayer dJoin 5),
       .playersList "s1" [("s2", mkP "v" "M" 0 0)]])] at h
    rcases List.mem_cons.mp h with h' | h'
    · exact Event.noConfusion h'
    · rcases List.mem_cons.mp h' with h'' | h''
      · exact Event.noConfusion h''
      · cases h''
  · intro h
    rw [(rfl : (playerJoin stJ "s1" dJoin 5).2 =
      [.playerJoinedB "s1" (mkJoinPlayer dJoin 5),
       .playersList "s1" [("s2", mkP "v" "M" 0 0)]])] at h
    rcases List.mem_cons.mp h with h' | h'
    · exact Event.noConfusion h'
    · rcases List.mem_cons.mp h' with h'' | h''
      · exact Event.noConfusion h''
      · cases h''

/-- C6 (amended: the eviction clause applies to pre-existing entries under
a different connection id): after `player:join`, the registry holds exactly
one entry whose user id or display name strictly equals the joining
identity — the newly inserted one — and every pre-existing entry under a
different connection id with a matching user id or display name has been
removed, with a `player:left` broadcast and a forced disconnect emitted for
it. -/
theorem join_dedup (st : ChatState) (sid : String) (d : JoinData) (now : ℚ)
    (hN : (st.players.map Prod.fst).Nodup) :
    (playerJoin st sid d now).1.players.filter
        (fun e => matchesIdentity e.2 d.userId d.nickname) =
      [(sid, mkJoinPlayer d now)] ∧
    (∀ e ∈ st.players, e.1 ≠ sid →
      matchesIdentity e.2 d.userId d.nickname = true →
      Event.playerLeftB e.1 ∈ (playerJoin st sid d now).2 ∧
      Event.disconnectSock e.1 ∈ (playerJoin st sid d now).2 ∧
      getKey (playerJoin st sid d now).1.players e.1 = none) := by
  have hplayers : (playerJoin st sid d now).1.players =
      setKey (st.players.filter (fun e =>
        !(e.1 != sid && matchesIdentity e.2 d.userId d.nickname)))
        sid (mkJoinPlayer d now) := by
    simp [playerJoin]
  have hkeptN : ((st.players.filter (fun e =>
      !(e.1 != sid && matchesIdentity e.2 d.userId d.nickname))).map
        Prod.fst).Nodup :=
    List.Nodup.sublist ((List.filter_sublist _).map Prod.fst) hN
  have hkept : ∀ e ∈ st.players.filter (fun e =>
      !(e.1 != sid && matchesIdentity e.2 d.userId d.nickname)),
      e.1 ≠ sid → matchesIdentity e.2 d.userId d.nickname = false := by
    intro e he hne
    rcases List.mem_filter.mp he with ⟨-, hpred⟩
    have hp' : e.1 = sid ∨ matchesIdentity e.2 d.userId d.nickname = false := by
      simpa using hpred
    rcases hp' with h | h
    · exact absurd h hne
    · exact h
  constructor
  · rw [hplayers]
    apply filter_eq_singleton_of
    · exact List.Nodup.of_map Prod.fst (nodup_keys_setKey hkeptN sid _)
    · have := getKey_setKey_self (st.players.filter (fun e =>
        !(e.1 != sid && matchesIdentity e.2 d.userId d.nickname)))
        sid (mkJoinPlayer d now)
      exact getKey_mem this
    · simp [matchesIdentity, mkJoinPlayer]
    · intro e he hPe
      rcases mem_setKey he with rfl | ⟨hm, hne⟩
      · rfl
      · exact absurd hPe (by simp [hkept e hm hne])
  · intro e he hne hmatch
    have hdup : (fun e : String × Player =>
        e.1 != sid && matchesIdentity e.2 d.userId d.nickname) e = true := by
      simp only [Bool.and_eq_true, bne_iff_ne]
      exact ⟨hne, hmatch⟩
    have hev : (playerJoin st sid d now).2 =
        (st.players.filter (fun e =>
          e.1 != sid && matchesIdentity e.2 d.userId d.nickname)).flatMap
          (fun e => [.playerLeftB e.1, .disconnectSock e.1]) ++
        [.playerJoinedB sid (mkJoinPlayer d now),
         .playersList sid (((playerJoin st sid d now).1.players).filter
            (fun e => e.1 != sid))] := by
      simp [playerJoin, hplayers]
    have hevicted : e ∈ st.players.filter (fun e =>
        e.1 != sid && matchesIdentity e.2 d.userId d.nickname) :=
      List.mem_filter.mpr ⟨he, hdup⟩
    refine ⟨?_, ?_, ?_⟩
    · rw [hev, List.mem_append]
      exact Or.inl (List.mem_flatMap.mpr ⟨e, hevicted, by simp⟩)
    · rw [hev, List.mem_append]
      exact Or.inl (List.mem_flatMap.mpr ⟨e, hevicted, by simp⟩)
    · rw [hplayers]
      apply getKey_eq_none_of_forall
      intro f hf
      rcases mem_setKey hf with rfl | ⟨hfm, hfne⟩
      · simpa using hne.symm
      · intro hfe
        have hfeq : f = e :=
          List.inj_on_of_nodup_map hN
            ((List.mem_filter.mp hfm).1) he (by simp [hfe])
        subst hfeq
        have hcontra := hkept f hfm hfne
        rw [hmatch] at hcontra
        cases hcontra


/-- C6 witness: a join from a new socket with an identity matching `s1`
evicts `s1` (left broadcast, forced disconnect, registry removal) and
leaves exactly one matching entry, the new one. -/
theorem join_dedup_witness :
    (playerJoin stJ "s3" dJoin 5).1.players.filter
        (fun e => matchesIdentity e.2 dJoin.userId dJoin.nickname) =
      [("s3", mkJoinPlayer dJoin 5)] ∧
    Event.playerLeftB "s1" ∈ (playerJoin stJ "s3" dJoin 5).2 ∧
    Event.disconnectSock "s1" ∈ (playerJoin stJ "s3" dJoin 5).2 ∧
    getKey (playerJoin stJ "s3" dJoin 5).1.players "s1" = none := by
  have h := join_dedup stJ "s3" dJoin 5 (by decide)
  have h2 := h.2 ("s1", mkP "u" "N" 0 0) (by simp [stJ]) (by decide) (by rfl)
  exact ⟨h.1, h2.1, h2.2.1, h2.2.2⟩

/-! ## C10: idle sweep and the rate-limit table -/

/-- C10: the idle sweep removes a timed-out connection from the registry,
notifies it with `connection:timeout`, and broadcasts `player:left`, but —
unlike explicit leave and disconnect, which both delete the rate-limit
entry — it leaves the whole rate-limit table untouched, so the evicted
connection's rate-limit entry persists. -/
theorem idle_sweep_keeps_rate_limit (st : ChatState) (g : Ground)
    (now : ℚ) (sid : String) (p : Player)
    (hN : (st.players.map Prod.fst).Nodup)
    (hp : getKey st.players sid = some p)
    (hto : now - p.lastUpdate > IDLE_TIMEOUT) :
    getKey (cleanup st now).1.players sid = none ∧
    (cleanup st now).1.rateLimits = st.rateLimits ∧
    Event.connectionTimeout sid ∈ (cleanup st now).2 ∧
    Event.playerLeftB sid ∈ (cleanup st now).2 ∧
    (playerLeave st sid).1.rateLimits = eraseKey st.rateLimits sid ∧
    (disconnectHandler st g sid).1.rateLimits = eraseKey st.rateLimits sid := by
  have hmem : (sid, p) ∈ st.players := getKey_mem hp
  have htoB : decide (now - p.lastUpdate > IDLE_TIMEOUT) = true := by
    simpa using hto
  refine ⟨?_, rfl, ?_, ?_, ?_, ?_⟩
  · apply getKey_eq_none_of_forall
    intro e he
    simp only [cleanup] at he
    rcases List.mem_filter.mp he with ⟨hmem', hkeep⟩
    intro hek
    have : e = (sid, p) := by
      apply List.inj_on_of_nodup_map hN hmem' hmem
      simp [hek]
    subst this
    simp only [htoB] at hkeep
    cases hkeep
  · simp only [cleanup]
    exact List.mem_flatMap.mpr ⟨(sid, p),
      List.mem_filter.mpr ⟨hmem, htoB⟩, by simp⟩
  · simp only [cleanup]
    exact List.mem_flatMap.mpr ⟨(sid, p),
      List.mem_filter.mpr ⟨hmem, htoB⟩, by simp⟩
  · simp [playerLeave, hp]
  · simp [disconnectHandler, hp]

/-- C10 witness: a concrete timed-out connection keeps its rate-limit entry
through the sweep, while an explicit leave would delete it. -/
theorem idle_sweep_keeps_rate_limit_witness :
    getKey (cleanup stT 400001).1.players "A" = none ∧
    (cleanup stT 400001).1.rateLimits = stT.rateLimits ∧
    Event.connectionTimeout "A" ∈ (cleanup stT 400001).2 ∧
    Event.playerLeftB "A" ∈ (cleanup stT 400001).2 ∧
    (playerLeave stT "A").1.rateLimits = eraseKey stT.rateLimits "A" ∧
    (disconnectHandler stT g3 "A").1.rateLimits =
      eraseKey stT.rateLimits "A" :=
  idle_sweep_keeps_rate_limit stT g3 400001 "A" (mkP "a" "A" 0 0)
    (by decide) (by rfl) (by norm_num [mkP, IDLE_TIMEOUT])

end CVStudio
